import Mathlib

/-!
Verification development for the wildfire resource-management repository.

Part 1 embeds `backend/resource_optimized.py`: the zone table, the
nearest-zone lookup and the two-pass greedy fractional reallocation.
Part 2 embeds the tile-data pipeline of `backend/model.py`: feature-key
resolution, the clip transforms, tile parsing, weight-mask derivation and
dataset assembly.

Modelling conventions:
* pandas rows become a Lean structure; the dataframe becomes a `List` in
  row order, and `df[df["priority"] == p]` becomes `List.filter`.
* Python floats are modelled by exact rationals.  The two places the code
  does float arithmetic whose result feeds an integer are
  `int(capacity * 0.4)` and `int(capacity * 0.2)`; for every capacity
  below 2^53 the IEEE-754 double computation agrees with the exact
  rational floor (the doubles nearest to 0.4 and 0.2 lie strictly above
  those rationals, and the relative error is far below the distance to
  the next integer), so the rational model is faithful on the whole
  integer range doubles can represent.
* `scipy.spatial.distance.euclidean` followed by `np.argmin` is modelled
  by a first-minimum scan over squared distances: the square root is
  strictly monotone on nonnegatives, so both the chosen index and the
  tie pattern are identical; theorems about distance minimality are
  nevertheless stated with the real Euclidean distance.
-/

/-- A row of the zone table `resources_output.csv`, restricted to the
columns `resource_optimized.py` reads.  Capacities are natural numbers,
matching the data model's non-negative-integer requirement. -/
structure ZoneRecord where
  county_name : String
  latitude : ℚ
  longitude : ℚ
  firefighter_capacity : Nat
  water_tank_capacity : Nat
  fire_zone : String
deriving DecidableEq

/-- One element of the `results` list built by `resource_optimized.py`:
a dict with keys `from, to, firefighters, water, from_zone, to_zone`
(`from` is a Lean keyword, hence the trailing underscore). -/
structure TransferEvent where
  from_ : String
  to_ : String
  firefighters : Nat
  water : Nat
  from_zone : String
  to_zone : String
deriving DecidableEq

/-- Embeds the `priority_map` dict: `dict.get` on an absent key (pandas
`Series.map` of an unrecognized label) yields no value (NaN), modelled
by `none`. -/
def priority_map (label : String) : Option Nat :=
  if label = "Critical Day 1" then some 4
  else if label = "Critical Day 2" then some 3
  else if label = "At Risk Day 3" then some 2
  else if label = "Safe Zone" then some 1
  else none

/-- Embeds `df[df["priority"] == p]` after `df["priority"] =
df["fire_zone"].map(priority_map)`: rows whose mapped priority equals
`p`, in row order.  A NaN priority (unmapped label) equals no number,
so such rows are dropped by every one of these filters. -/
def zonesWithPriority (df : List ZoneRecord) (p : Nat) : List ZoneRecord :=
  df.filter (fun z => priority_map z.fire_zone = some p)

/-- Squared plane distance between the `(latitude, longitude)` pairs of
two zone records. -/
def sqDist (a b : ZoneRecord) : ℚ :=
  (a.latitude - b.latitude) * (a.latitude - b.latitude) +
    (a.longitude - b.longitude) * (a.longitude - b.longitude)

/-- Real Euclidean distance between the coordinate pairs of two zone
records, exactly what `scipy.spatial.distance.euclidean` computes. -/
noncomputable def euclid (a b : ZoneRecord) : ℝ :=
  Real.sqrt ((sqDist a b : ℚ) : ℝ)

/-- First-minimum scan: returns the first element of `best :: ts`
minimizing `d`, replacing the running best only on a strictly smaller
value.  This is exactly the element `np.argmin` (first index of the
minimum) selects from the distance list. -/
def firstMinBy (d : ZoneRecord → ℚ) : ZoneRecord → List ZoneRecord → ZoneRecord
  | best, [] => best
  | best, t :: ts => if d t < d best then firstMinBy d t ts else firstMinBy d best ts

/-- Embeds `find_nearest_zone`: `None` on an empty target frame,
otherwise `target_zones.iloc[np.argmin(distances)]`. -/
def find_nearest_zone (source_row : ZoneRecord) (target_zones : List ZoneRecord) :
    Option ZoneRecord :=
  match target_zones with
  | [] => none
  | t :: ts => some (firstMinBy (fun z => sqDist source_row z) t ts)

/-- Embeds `int(capacity * move_fraction)`: the float product truncated
toward zero, which for a non-negative capacity is the floor (see the
header note on float faithfulness). -/
def transferAmount (move_fraction : ℚ) (capacity : Nat) : Nat :=
  (Int.floor ((capacity : ℚ) * move_fraction)).toNat

/-- The dict appended in the Pass 1 loop (Safe Zone → Critical Day 1,
`move_fraction = 0.4`). -/
def mkEvent1 (row nearest_critical : ZoneRecord) : TransferEvent :=
  { from_ := row.county_name
    to_ := nearest_critical.county_name
    firefighters := transferAmount 0.4 row.firefighter_capacity
    water := transferAmount 0.4 row.water_tank_capacity
    from_zone := "Safe Zone"
    to_zone := "Critical Day 1" }

/-- The dict appended in the Pass 2 loop (At Risk Day 3 → Critical Day 2,
`move_fraction = 0.2`). -/
def mkEvent2 (row nearest_critical_2 : ZoneRecord) : TransferEvent :=
  { from_ := row.county_name
    to_ := nearest_critical_2.county_name
    firefighters := transferAmount 0.2 row.firefighter_capacity
    water := transferAmount 0.2 row.water_tank_capacity
    from_zone := "At Risk Day 3"
    to_zone := "Critical Day 2" }

/-- One of the two `iterrows` loops of `resource_optimized.py`: fold
over the source rows, appending `mk row target` to `results` when
`find_nearest_zone` returns a target from the snapshot frame `crit`,
skipping the row otherwise. -/
def passLoop (crit : List ZoneRecord) (mk : ZoneRecord → ZoneRecord → TransferEvent)
    (rows : List ZoneRecord) (results : List TransferEvent) : List TransferEvent :=
  rows.foldl (fun results row =>
    match find_nearest_zone row crit with
    | some t => results ++ [mk row t]
    | none => results) results

/-- Embeds the module body of `resource_optimized.py`: take the four
category snapshots of the original table, then run the Pass 1 loop and
the Pass 2 loop over the `results` accumulator, starting empty. -/
def runEngine (df : List ZoneRecord) : List TransferEvent :=
  let safe_zones := zonesWithPriority df 1
  let at_risk_zones := zonesWithPriority df 2
  let critical_zones_1 := zonesWithPriority df 4
  let critical_zones_2 := zonesWithPriority df 3
  let results : List TransferEvent := []
  let results := passLoop critical_zones_1 mkEvent1 safe_zones results
  passLoop critical_zones_2 mkEvent2 at_risk_zones results

/-- The mutable state of the script: the loaded table and the `results`
accumulator.  The loops only ever append to `results`; no field of any
zone row is written. -/
structure EngineState where
  zones : List ZoneRecord
  results : List TransferEvent
deriving DecidableEq

/-- One loop iteration as a state transformer: append the event when a
nearest target exists, leave the state unchanged otherwise.  `crit` is
the snapshot target frame taken before the loops started. -/
def emitStep (crit : List ZoneRecord) (mk : ZoneRecord → ZoneRecord → TransferEvent)
    (st : EngineState) (row : ZoneRecord) : EngineState :=
  match find_nearest_zone row crit with
  | some t => { st with results := st.results ++ [mk row t] }
  | none => st

/-- The script as a state machine: snapshots are taken from the loaded
table, then Pass 1 and Pass 2 fold `emitStep` over their source rows. -/
def runEngineFrom (st : EngineState) : EngineState :=
  let safe_zones := zonesWithPriority st.zones 1
  let at_risk_zones := zonesWithPriority st.zones 2
  let critical_zones_1 := zonesWithPriority st.zones 4
  let critical_zones_2 := zonesWithPriority st.zones 3
  let st1 := safe_zones.foldl (emitStep critical_zones_1 mkEvent1) st
  at_risk_zones.foldl (emitStep critical_zones_2 mkEvent2) st1

/-- Pass 1 as the specification words it: for each zone labeled
"Safe Zone" in row order, if a "Critical Day 1" zone exists, one event
moving `floor(0.40 × capacity)` of each resource to the nearest
"Critical Day 1" zone. -/
def pass1Spec (df : List ZoneRecord) : List TransferEvent :=
  (df.filter (fun z => z.fire_zone = "Safe Zone")).filterMap (fun row =>
    (find_nearest_zone row (df.filter (fun z => z.fire_zone = "Critical Day 1"))).map
      (fun tgt =>
        { from_ := row.county_name
          to_ := tgt.county_name
          firefighters := Nat.floor ((40 / 100 : ℚ) * row.firefighter_capacity)
          water := Nat.floor ((40 / 100 : ℚ) * row.water_tank_capacity)
          from_zone := "Safe Zone"
          to_zone := "Critical Day 1" }))

/-- Pass 2 as the specification words it: for each zone labeled
"At Risk Day 3" in row order, if a "Critical Day 2" zone exists, one
event moving `floor(0.20 × capacity)` of each resource to the nearest
"Critical Day 2" zone. -/
def pass2Spec (df : List ZoneRecord) : List TransferEvent :=
  (df.filter (fun z => z.fire_zone = "At Risk Day 3")).filterMap (fun row =>
    (find_nearest_zone row (df.filter (fun z => z.fire_zone = "Critical Day 2"))).map
      (fun tgt =>
        { from_ := row.county_name
          to_ := tgt.county_name
          firefighters := Nat.floor ((20 / 100 : ℚ) * row.firefighter_capacity)
          water := Nat.floor ((20 / 100 : ℚ) * row.water_tank_capacity)
          from_zone := "At Risk Day 3"
          to_zone := "Critical Day 2" }))

/-!
Part 2: the tile-data pipeline of `backend/model.py`.

A 2D feature grid is a list of rows of exact rationals; a tile record is
a lookup from feature name to its decoded grid (the result of
`tf.io.parse_single_example`).  Tensors with a channel axis are modelled
as lists of grids, one grid per channel, so the HWC transposes of the
source (pure axis reordering) are identities of the model.  Errors
(Python exceptions) are `Except String`.
-/

/-- A fixed-size 2D feature grid. -/
abbrev Grid := List (List ℚ)

/-- The constant `INPUT_FEATURES` of `model.py`, in declared order. -/
def INPUT_FEATURES : List String :=
  ["elevation", "th", "vs", "tmmn", "tmmx", "sph",
   "pr", "pdsi", "NDVI", "population", "erc", "PrevFireMask"]

/-- The constant `OUTPUT_FEATURES` of `model.py`. -/
def OUTPUT_FEATURES : List String := ["FireMask"]

/-- The constant `DATA_STATS` dict of `model.py`: feature name to
`(min_clip, max_clip, mean, std)`, as an association list. -/
def DATA_STATS : List (String × ℚ × ℚ × ℚ × ℚ) :=
  [("elevation", 0.0, 3536.0, 896.5714, 842.6101),
   ("pdsi", -6.0559, 6.7432, -0.7729, 2.4407),
   ("NDVI", -3826.0, 9282.0, 5350.6865, 2185.2192),
   ("pr", 0.0, 19.2422, 0.3234289, 1.5336641),
   ("sph", 0.0, 1.0, 0.0065263123, 0.003735537),
   ("th", 0.0, 360.0, 146.6468, 3435.0725),
   ("tmmn", 253.15, 299.6313, 281.85196, 18.4972),
   ("tmmx", 253.15, 317.3869, 297.71643, 19.4581),
   ("vs", 0.0, 9.7368, 3.6278, 1.3092),
   ("erc", 0.0, 109.9254, 53.4690, 25.0980),
   ("population", 0.0, 2935.7548828125, 30.4603, 214.20015),
   ("PrevFireMask", -1.0, 1.0, 0.0, 1.0),
   ("FireMask", -1.0, 1.0, 0.0, 1.0)]

/-- Dict lookup `DATA_STATS[base_key]` (with the `in` membership test). -/
def lookupStats (base_key : String) : Option (ℚ × ℚ × ℚ × ℚ) :=
  (DATA_STATS.find? (fun p => p.1 == base_key)).map (fun p => p.2)

/-- Embeds `_get_base_key`: `re.match(r'([a-zA-Z]+)', key)` anchored at
the start returns the maximal leading run of ASCII letters, and the
function raises when the first character is not a letter (the spec
names this failure `KeyFormatError`). -/
def get_base_key (key : String) : Except String String :=
  match key.data.takeWhile Char.isAlpha with
  | [] => .error ("The provided key does not match the expected pattern: " ++ key)
  | c :: cs => .ok (String.mk (c :: cs))

/-- Embeds `tf.clip_by_value(x, lo, hi)` on a scalar. -/
def clip_by_value (x lo hi : ℚ) : ℚ := min (max x lo) hi

/-- Embeds `tf.math.divide_no_nan`: ordinary division, except the
result is 0 whenever the divisor is 0. -/
def divide_no_nan (a b : ℚ) : ℚ := if b = 0 then 0 else a / b

/-- The arithmetic `_clip_and_rescale` performs on one value once the
statistics `(min_val, max_val)` are fetched: clamp into the clip range,
then `divide_no_nan(x - min_val, max_val - min_val)`. -/
def clip_and_rescale_val (min_val max_val x : ℚ) : ℚ :=
  divide_no_nan (clip_by_value x min_val max_val - min_val) (max_val - min_val)

/-- The arithmetic `_clip_and_normalize` performs on one value: clamp,
subtract the mean, `divide_no_nan` by the std. -/
def clip_and_normalize_val (min_val max_val mean std x : ℚ) : ℚ :=
  divide_no_nan (clip_by_value x min_val max_val - mean) std

/-- Elementwise application of a scalar transform to a grid (the
tensor ops of the source are elementwise). -/
def mapGrid (f : ℚ → ℚ) (g : Grid) : Grid := g.map (fun row => row.map f)

/-- Embeds `_clip_and_rescale` on a whole feature grid: resolve the base
key (propagating its failure), look the statistics up in `DATA_STATS`
(raising when absent), then transform every cell. -/
def clip_and_rescale_grid (g : Grid) (key : String) : Except String Grid := do
  let base_key ← get_base_key key
  match lookupStats base_key with
  | none => .error ("No data statistics available for the requested key: " ++ key)
  | some (min_val, max_val, _, _) => pure (mapGrid (clip_and_rescale_val min_val max_val) g)

/-- Embeds `_clip_and_normalize` on a whole feature grid. -/
def clip_and_normalize_grid (g : Grid) (key : String) : Except String Grid := do
  let base_key ← get_base_key key
  match lookupStats base_key with
  | none => .error ("No data statistics available for the requested key: " ++ key)
  | some (min_val, max_val, mean, std) =>
      pure (mapGrid (clip_and_normalize_val min_val max_val mean std) g)

/-- Embeds the weight derivation of `_parse_fn`:
`tf.cast(tf.greater_equal(output_img, zeros_like(output_img)), int32)`,
elementwise 1 where the output value is `≥ 0` and 0 otherwise. -/
def weightsGrid (g : Grid) : List (List Nat) :=
  g.map (fun row => row.map (fun v => if 0 ≤ v then 1 else 0))

/-- An axis-aligned square crop of side `n` at row offset `offR` and
column offset `offC`. -/
def cropGrid (offR offC n : Nat) (g : Grid) : Grid :=
  ((g.drop offR).take n).map (fun row => (row.drop offC).take n)

/-- The crop step of `_parse_fn` on one channel.  `tf.image.random_crop`
draws one offset pair for the channel-concatenated tensor, so the same
offset applies to every input and output channel; the drawn offset is
the explicit parameter `off`.  `tf.image.central_crop` with fraction
`sample_size / data_size` keeps the centered square of side
`sample_size`, at offset `(data_size - sample_size) / 2`. -/
def applyCrop (random_crop center_crop : Bool) (data_size sample_size : Nat)
    (off : Nat × Nat) (g : Grid) : Grid :=
  if random_crop then cropGrid off.1 off.2 sample_size g
  else if center_crop then
    cropGrid ((data_size - sample_size) / 2) ((data_size - sample_size) / 2) sample_size g
  else g

/-- A parsed sample: input channels, output channels, weight channels. -/
abbrev Sample := List Grid × List Grid × List (List (List Nat))

/-- Embeds `_parse_fn`.  `rec` is the decoded tile record (feature name
to grid).  Steps, in source order: guard against both crop flags; build
`inputs_list` through the configured transform (or none); build
`outputs_list` untransformed; transpose to HWC (an identity of the
channel-list model); crop input and output with the same offset; derive
the weights from the cropped output. -/
def parse_fn (rec : String → Grid) (data_size sample_size : Nat)
    (clip_and_normalize clip_and_rescale random_crop center_crop : Bool)
    (off : Nat × Nat) : Except String Sample :=
  if random_crop && center_crop then
    .error "Cannot have both random_crop and center_crop be True"
  else do
    let inputs_list ←
      if clip_and_normalize then
        INPUT_FEATURES.mapM (fun key => clip_and_normalize_grid (rec key) key)
      else if clip_and_rescale then
        INPUT_FEATURES.mapM (fun key => clip_and_rescale_grid (rec key) key)
      else
        pure (INPUT_FEATURES.map rec)
    let outputs_list := OUTPUT_FEATURES.map rec
    let input_img := inputs_list.map (applyCrop random_crop center_crop data_size sample_size off)
    let output_img := outputs_list.map (applyCrop random_crop center_crop data_size sample_size off)
    let weights := output_img.map weightsGrid
    pure (input_img, output_img, weights)

/-- Embeds `get_dataset`.  `files` holds the decoded records of each
shard file; the interleave is modelled by concatenation (the spec
declares cross-shard order irrelevant).  The both-normalize guard is
the function's first statement.  `tf.data.Dataset.map` traces
`_parse_fn` once at pipeline construction on a symbolic element, so the
record-independent both-crop guard heading `_parse_fn` fires at
construction time, before any record is read; the trace is modelled by
hoisting that guard.  Samples are then parsed and grouped into batches
of `batch_size`. -/
def get_dataset (files : List (List (String → Grid))) (data_size sample_size : Nat)
    (batch_size : Nat) (clip_and_normalize clip_and_rescale random_crop center_crop : Bool)
    (off : Nat × Nat) : Except String (List (List Sample)) :=
  if clip_and_normalize && clip_and_rescale then
    .error "Cannot have both normalize and rescale."
  else if random_crop && center_crop then
    .error "Cannot have both random_crop and center_crop be True"
  else do
    let samples ← files.flatten.mapM (fun rec =>
      parse_fn rec data_size sample_size clip_and_normalize clip_and_rescale
        random_crop center_crop off)
    pure (List.toChunks batch_size samples)

/-!
Helper lemmas.
-/

/-- A pass loop is the accumulator followed by a `filterMap` of the
rows: appending inside a left fold never feeds emitted events back into
the per-row computation. -/
theorem passLoop_eq (crit : List ZoneRecord) (mk : ZoneRecord → ZoneRecord → TransferEvent)
    (rows : List ZoneRecord) (results : List TransferEvent) :
    passLoop crit mk rows results =
      results ++ rows.filterMap (fun row => (find_nearest_zone row crit).map (mk row)) := by
  unfold passLoop
  induction rows generalizing results with
  | nil => simp
  | cons a rows ih =>
      rw [List.foldl_cons, List.filterMap_cons]
      cases h : find_nearest_zone a crit with
      | none => simpa [h] using ih results
      | some t =>
          simp only [h]
          rw [ih (results ++ [mk a t])]
          simp

theorem priority_map_eq_iff (s : String) :
    (priority_map s = some 1 ↔ s = "Safe Zone") ∧
      (priority_map s = some 2 ↔ s = "At Risk Day 3") ∧
      (priority_map s = some 3 ↔ s = "Critical Day 2") ∧
      (priority_map s = some 4 ↔ s = "Critical Day 1") := by
  unfold priority_map
  split_ifs with h1 h2 h3 h4 <;> subst_eqs <;> refine ⟨?_, ?_, ?_, ?_⟩ <;> simp_all

theorem zonesWithPriority_one (df : List ZoneRecord) :
    zonesWithPriority df 1 = df.filter (fun z => z.fire_zone = "Safe Zone") :=
  List.filter_congr (fun z _ => decide_eq_decide.mpr (priority_map_eq_iff z.fire_zone).1)

theorem zonesWithPriority_two (df : List ZoneRecord) :
    zonesWithPriority df 2 = df.filter (fun z => z.fire_zone = "At Risk Day 3") :=
  List.filter_congr (fun z _ => decide_eq_decide.mpr (priority_map_eq_iff z.fire_zone).2.1)

theorem zonesWithPriority_three (df : List ZoneRecord) :
    zonesWithPriority df 3 = df.filter (fun z => z.fire_zone = "Critical Day 2") :=
  List.filter_congr (fun z _ => decide_eq_decide.mpr (priority_map_eq_iff z.fire_zone).2.2.1)

theorem zonesWithPriority_four (df : List ZoneRecord) :
    zonesWithPriority df 4 = df.filter (fun z => z.fire_zone = "Critical Day 1") :=
  List.filter_congr (fun z _ => decide_eq_decide.mpr (priority_map_eq_iff z.fire_zone).2.2.2)

/-- Truncating the exact product is the natural-number floor. -/
theorem transferAmount_eq (frac : ℚ) (c : Nat) :
    transferAmount frac c = Nat.floor (frac * (c : ℚ)) := by
  unfold transferAmount
  rw [mul_comm, Int.floor_toNat]

theorem mkEvent1_eq (row t : ZoneRecord) :
    mkEvent1 row t =
      { from_ := row.county_name
        to_ := t.county_name
        firefighters := Nat.floor ((40 / 100 : ℚ) * row.firefighter_capacity)
        water := Nat.floor ((40 / 100 : ℚ) * row.water_tank_capacity)
        from_zone := "Safe Zone"
        to_zone := "Critical Day 1" } := by
  simp only [mkEvent1, transferAmount_eq]
  norm_num

theorem mkEvent2_eq (row t : ZoneRecord) :
    mkEvent2 row t =
      { from_ := row.county_name
        to_ := t.county_name
        firefighters := Nat.floor ((20 / 100 : ℚ) * row.firefighter_capacity)
        water := Nat.floor ((20 / 100 : ℚ) * row.water_tank_capacity)
        from_zone := "At Risk Day 3"
        to_zone := "Critical Day 2" } := by
  simp only [mkEvent2, transferAmount_eq]
  norm_num

/-- The engine output, as two `filterMap`s over the category snapshots. -/
theorem runEngine_eq (df : List ZoneRecord) :
    runEngine df =
      (zonesWithPriority df 1).filterMap
          (fun row => (find_nearest_zone row (zonesWithPriority df 4)).map (mkEvent1 row)) ++
        (zonesWithPriority df 2).filterMap
          (fun row => (find_nearest_zone row (zonesWithPriority df 3)).map (mkEvent2 row)) := by
  simp only [runEngine, passLoop_eq, List.nil_append]

theorem sqDist_nonneg (a b : ZoneRecord) : 0 ≤ sqDist a b := by
  unfold sqDist
  have h1 := mul_self_nonneg (a.latitude - b.latitude)
  have h2 := mul_self_nonneg (a.longitude - b.longitude)
  linarith

/-- Squared-distance order transfers to Euclidean distance. -/
theorem euclid_le_euclid {s a b : ZoneRecord} (h : sqDist s a ≤ sqDist s b) :
    euclid s a ≤ euclid s b := by
  unfold euclid
  exact Real.sqrt_le_sqrt (by exact_mod_cast h)

/-- Strict squared-distance order transfers to Euclidean distance. -/
theorem euclid_lt_euclid {s a b : ZoneRecord} (h : sqDist s a < sqDist s b) :
    euclid s a < euclid s b := by
  unfold euclid
  refine Real.sqrt_lt_sqrt ?_ (by exact_mod_cast h)
  exact_mod_cast sqDist_nonneg s a

/-- The first-minimum scan picks an element of `best :: ts`; everything
strictly before it is strictly farther, everything after it is no
nearer. -/
theorem firstMinBy_decomp (d : ZoneRecord → ℚ) (best : ZoneRecord) (ts : List ZoneRecord) :
    ∃ l1 l2, best :: ts = l1 ++ firstMinBy d best ts :: l2 ∧
      (∀ x ∈ l1, d (firstMinBy d best ts) < d x) ∧
      (∀ x ∈ l2, d (firstMinBy d best ts) ≤ d x) := by
  induction ts generalizing best with
  | nil => exact ⟨[], [], by simp [firstMinBy], by simp, by simp⟩
  | cons t ts ih =>
      by_cases h : d t < d best
      · have hres : firstMinBy d best (t :: ts) = firstMinBy d t ts := by
          simp [firstMinBy, h]
        obtain ⟨l1, l2, heq, hlt, hle⟩ := ih t
        have hresle : d (firstMinBy d t ts) ≤ d t := by
          cases l1 with
          | nil =>
              simp only [List.nil_append, List.cons.injEq] at heq
              rw [← heq.1]
          | cons a l1' =>
              simp only [List.cons_append, List.cons.injEq] at heq
              exact le_of_lt (heq.1 ▸ hlt a (by simp))
        refine ⟨best :: l1, l2, ?_, ?_, ?_⟩
        · rw [hres, List.cons_append, ← heq]
        · intro x hx
          rcases List.mem_cons.1 hx with rfl | hx
          · rw [hres]; exact lt_of_le_of_lt hresle h
          · rw [hres]; exact hlt x hx
        · intro x hx; rw [hres]; exact hle x hx
      · have hres : firstMinBy d best (t :: ts) = firstMinBy d best ts := by
          simp [firstMinBy, h]
        obtain ⟨l1, l2, heq, hlt, hle⟩ := ih best
        cases l1 with
        | nil =>
            simp only [List.nil_append, List.cons.injEq] at heq
            refine ⟨[], t :: ts, ?_, by simp, ?_⟩
            · rw [hres, ← heq.1, List.nil_append]
            · intro x hx
              rcases List.mem_cons.1 hx with rfl | hx
              · rw [hres, ← heq.1]; exact not_lt.1 h
              · rw [hres]; exact hle x (heq.2 ▸ hx)
        | cons a l1' =>
            simp only [List.cons_append, List.cons.injEq] at heq
            refine ⟨best :: t :: l1', l2, ?_, ?_, ?_⟩
            · rw [hres, List.cons_append, List.cons_append, ← heq.2]
            · intro x hx
              rcases List.mem_cons.1 hx with rfl | hx
              · rw [hres]; exact heq.1 ▸ hlt a (by simp)
              · rcases List.mem_cons.1 hx with rfl | hx
                · rw [hres]
                  exact lt_of_lt_of_le (heq.1 ▸ hlt a (by simp)) (not_lt.1 h)
                · rw [hres]; exact hlt x (by simp [hx])
            · intro x hx; rw [hres]; exact hle x hx

/-- Folding `emitStep` never writes the zone table and only appends to
the results accumulator. -/
theorem emitStep_foldl (crit : List ZoneRecord) (mk : ZoneRecord → ZoneRecord → TransferEvent)
    (rows : List ZoneRecord) (st : EngineState) :
    rows.foldl (emitStep crit mk) st =
      { zones := st.zones,
        results := st.results ++
          rows.filterMap (fun row => (find_nearest_zone row crit).map (mk row)) } := by
  induction rows generalizing st with
  | nil => simp
  | cons a rows ih =>
      rw [List.foldl_cons, List.filterMap_cons]
      cases h : find_nearest_zone a crit with
      | none => simpa [emitStep, h] using ih st
      | some t =>
          rw [show emitStep crit mk st a =
            { zones := st.zones, results := st.results ++ [mk a t] } by simp [emitStep, h]]
          rw [ih]
          simp [h]

theorem transferAmount_le (frac : ℚ) (c : Nat) (h1 : frac ≤ 1) : transferAmount frac c ≤ c := by
  rw [transferAmount_eq]
  calc Nat.floor (frac * (c : ℚ)) ≤ Nat.floor ((1 : ℚ) * (c : ℚ)) :=
        Nat.floor_le_floor (mul_le_mul_of_nonneg_right h1 (by positivity))
    _ = c := by rw [one_mul, Nat.floor_natCast]

/-- Every value of a cropped grid comes verbatim from a row of the
original grid. -/
theorem mem_cropGrid {a b n : Nat} {g : Grid} {row : List ℚ} (h : row ∈ cropGrid a b n g) :
    ∃ srcRow ∈ g, ∀ v ∈ row, v ∈ srcRow := by
  unfold cropGrid at h
  obtain ⟨srcRow, hsrc, rfl⟩ := List.mem_map.1 h
  refine ⟨srcRow, List.mem_of_mem_drop (List.mem_of_mem_take hsrc), ?_⟩
  exact fun v hv => List.mem_of_mem_drop (List.mem_of_mem_take hv)

/-- Every value of a crop-step result comes verbatim from a row of the
original grid (no value transform is applied by any crop mode). -/
theorem mem_applyCrop {rc cc : Bool} {ds ss : Nat} {off : Nat × Nat} {g : Grid}
    {row : List ℚ} (h : row ∈ applyCrop rc cc ds ss off g) :
    ∃ srcRow ∈ g, ∀ v ∈ row, v ∈ srcRow := by
  unfold applyCrop at h
  split_ifs at h
  · exact mem_cropGrid h
  · exact mem_cropGrid h
  · exact ⟨row, h, fun v hv => hv⟩

/-!
Claim theorems.
-/

/-- C1: for every zone table, the reallocation engine produces exactly
the ordered list of Transfer Events described by the spec: first one
event per "Safe Zone" row in row order — present iff a "Critical Day 1"
zone exists — moving `floor(0.40 × firefighter_capacity)` firefighters
and `floor(0.40 × water_tank_capacity)` water to the nearest
"Critical Day 1" zone; then likewise per "At Risk Day 3" row with the
fraction 0.20 toward the nearest "Critical Day 2" zone; all Pass 1
events precede all Pass 2 events and amounts are truncated fractions. -/
theorem spec_C1 (df : List ZoneRecord) : runEngine df = pass1Spec df ++ pass2Spec df := by
  rw [runEngine_eq]
  unfold pass1Spec pass2Spec
  rw [zonesWithPriority_one, zonesWithPriority_two, zonesWithPriority_three,
    zonesWithPriority_four]
  congr 1
  · exact List.filterMap_congr (fun row _ => by
      cases h : find_nearest_zone row (df.filter (fun z => z.fire_zone = "Critical Day 1")) <;>
        simp [h, mkEvent1_eq])
  · exact List.filterMap_congr (fun row _ => by
      cases h : find_nearest_zone row (df.filter (fun z => z.fire_zone = "Critical Day 2")) <;>
        simp [h, mkEvent2_eq])

/-- C2: the nearest-zone lookup returns `none` (no match, not an error)
on an empty target set; otherwise it returns a member of the target set
minimizing the plane Euclidean distance, and every target placed before
it in the set's natural order is strictly farther, so among equidistant
targets the first in order is selected. -/
theorem spec_C2 :
    (∀ source_row : ZoneRecord, find_nearest_zone source_row [] = none) ∧
    (∀ (source_row : ZoneRecord) (target_zones : List ZoneRecord), target_zones ≠ [] →
      ∃ r l1 l2, find_nearest_zone source_row target_zones = some r ∧
        target_zones = l1 ++ r :: l2 ∧
        (∀ x ∈ target_zones, euclid source_row r ≤ euclid source_row x) ∧
        (∀ x ∈ l1, euclid source_row r < euclid source_row x)) := by
  refine ⟨fun _ => rfl, fun s ts hne => ?_⟩
  match ts, hne with
  | t :: ts, _ =>
    obtain ⟨l1, l2, heq, hlt, hle⟩ := firstMinBy_decomp (fun z => sqDist s z) t ts
    refine ⟨firstMinBy (fun z => sqDist s z) t ts, l1, l2, rfl, heq, ?_,
      fun x hx => euclid_lt_euclid (hlt x hx)⟩
    intro x hx
    rw [heq] at hx
    rcases List.mem_append.1 hx with hx1 | hx2
    · exact le_of_lt (euclid_lt_euclid (hlt x hx1))
    · rcases List.mem_cons.1 hx2 with rfl | hx2
      · exact le_refl _
      · exact euclid_le_euclid (hle x hx2)

/-- Witness for C2 at a one-element target set. -/
theorem spec_C2_witness :
    ([(⟨"T", 1, 1, 0, 0, "Critical Day 1"⟩ : ZoneRecord)] ≠ []) ∧
    (∃ r l1 l2,
      find_nearest_zone ⟨"S", 0, 0, 0, 0, "Safe Zone"⟩
          [⟨"T", 1, 1, 0, 0, "Critical Day 1"⟩] = some r ∧
      [(⟨"T", 1, 1, 0, 0, "Critical Day 1"⟩ : ZoneRecord)] = l1 ++ r :: l2 ∧
      (∀ x ∈ [(⟨"T", 1, 1, 0, 0, "Critical Day 1"⟩ : ZoneRecord)],
        euclid ⟨"S", 0, 0, 0, 0, "Safe Zone"⟩ r ≤ euclid ⟨"S", 0, 0, 0, 0, "Safe Zone"⟩ x) ∧
      (∀ x ∈ l1,
        euclid ⟨"S", 0, 0, 0, 0, "Safe Zone"⟩ r < euclid ⟨"S", 0, 0, 0, 0, "Safe Zone"⟩ x)) :=
  ⟨by simp, spec_C2.2 ⟨"S", 0, 0, 0, 0, "Safe Zone"⟩
    [⟨"T", 1, 1, 0, 0, "Critical Day 1"⟩] (by simp)⟩

/-- C8: run as a state machine from any starting results accumulator,
the computation leaves every zone record (hence every capacity field)
unchanged and only appends to the results list; the appended events are
exactly `runEngine` of the original table, whose per-row targets are
computed from the snapshots of the original table — so previously
emitted events never influence later nearest-neighbor computations. -/
theorem spec_C8 (df : List ZoneRecord) (r0 : List TransferEvent) :
    runEngineFrom { zones := df, results := r0 } =
      { zones := df, results := r0 ++ runEngine df } := by
  simp only [runEngineFrom, runEngine]
  rw [emitStep_foldl, emitStep_foldl, passLoop_eq, passLoop_eq]
  simp [List.append_assoc]

/-- C9: every emitted Transfer Event moves, from a source row of the
table, amounts bounded by that row's capacities; the truncated fraction
is never negative (the amounts are natural numbers) and never exceeds
the available capacity. -/
theorem spec_C9 (df : List ZoneRecord) (e : TransferEvent) (he : e ∈ runEngine df) :
    ∃ z ∈ df, e.from_ = z.county_name ∧
      0 ≤ e.firefighters ∧ e.firefighters ≤ z.firefighter_capacity ∧
      0 ≤ e.water ∧ e.water ≤ z.water_tank_capacity := by
  rw [runEngine_eq] at he
  rcases List.mem_append.1 he with h | h
  · obtain ⟨row, hrow, hmap⟩ := List.mem_filterMap.1 h
    obtain ⟨t, hfind, rfl⟩ := Option.map_eq_some'.1 hmap
    exact ⟨row, List.mem_of_mem_filter hrow, rfl, Nat.zero_le _,
      transferAmount_le 0.4 _ (by norm_num), Nat.zero_le _,
      transferAmount_le 0.4 _ (by norm_num)⟩
  · obtain ⟨row, hrow, hmap⟩ := List.mem_filterMap.1 h
    obtain ⟨t, hfind, rfl⟩ := Option.map_eq_some'.1 hmap
    exact ⟨row, List.mem_of_mem_filter hrow, rfl, Nat.zero_le _,
      transferAmount_le 0.2 _ (by norm_num), Nat.zero_le _,
      transferAmount_le 0.2 _ (by norm_num)⟩

/-- Witness for C9 on a two-row table. -/
theorem spec_C9_witness :
    (mkEvent1 ⟨"A", 0, 0, 100, 1000, "Safe Zone"⟩ ⟨"B", 1, 0, 50, 500, "Critical Day 1"⟩ ∈
      runEngine [⟨"A", 0, 0, 100, 1000, "Safe Zone"⟩,
        ⟨"B", 1, 0, 50, 500, "Critical Day 1"⟩]) ∧
    (∃ z ∈ [(⟨"A", 0, 0, 100, 1000, "Safe Zone"⟩ : ZoneRecord),
        ⟨"B", 1, 0, 50, 500, "Critical Day 1"⟩],
      (mkEvent1 ⟨"A", 0, 0, 100, 1000, "Safe Zone"⟩
            ⟨"B", 1, 0, 50, 500, "Critical Day 1"⟩).from_ = z.county_name ∧
      0 ≤ (mkEvent1 ⟨"A", 0, 0, 100, 1000, "Safe Zone"⟩
            ⟨"B", 1, 0, 50, 500, "Critical Day 1"⟩).firefighters ∧
      (mkEvent1 ⟨"A", 0, 0, 100, 1000, "Safe Zone"⟩
            ⟨"B", 1, 0, 50, 500, "Critical Day 1"⟩).firefighters ≤ z.firefighter_capacity ∧
      0 ≤ (mkEvent1 ⟨"A", 0, 0, 100, 1000, "Safe Zone"⟩
            ⟨"B", 1, 0, 50, 500, "Critical Day 1"⟩).water ∧
      (mkEvent1 ⟨"A", 0, 0, 100, 1000, "Safe Zone"⟩
            ⟨"B", 1, 0, 50, 500, "Critical Day 1"⟩).water ≤ z.water_tank_capacity) := by
  have hmem : mkEvent1 ⟨"A", 0, 0, 100, 1000, "Safe Zone"⟩
      ⟨"B", 1, 0, 50, 500, "Critical Day 1"⟩ ∈
      runEngine [⟨"A", 0, 0, 100, 1000, "Safe Zone"⟩,
        ⟨"B", 1, 0, 50, 500, "Critical Day 1"⟩] := by
    show mkEvent1 ⟨"A", 0, 0, 100, 1000, "Safe Zone"⟩
        ⟨"B", 1, 0, 50, 500, "Critical Day 1"⟩ ∈
      [mkEvent1 ⟨"A", 0, 0, 100, 1000, "Safe Zone"⟩ ⟨"B", 1, 0, 50, 500, "Critical Day 1"⟩]
    exact List.mem_singleton.mpr rfl
  exact ⟨hmem, spec_C9 _ _ hmem⟩

/-- C10: rows whose label is not one of the four recognized category
strings are silently excluded — dropping them from the table leaves the
engine output unchanged (and the engine is a total function, raising no
error), and such a row belongs to no category snapshot, so it is
neither a source nor a target of either pass. -/
theorem spec_C10 (df : List ZoneRecord) :
    runEngine df = runEngine (df.filter (fun z => (priority_map z.fire_zone).isSome)) ∧
    (∀ z ∈ df,
      z.fire_zone ∉ ["Safe Zone", "At Risk Day 3", "Critical Day 2", "Critical Day 1"] →
      ∀ p : Nat, z ∉ zonesWithPriority df p) := by
  constructor
  · have hz : ∀ p, zonesWithPriority
        (df.filter (fun z => (priority_map z.fire_zone).isSome)) p = zonesWithPriority df p := by
      intro p
      unfold zonesWithPriority
      rw [List.filter_filter]
      refine List.filter_congr (fun z _ => ?_)
      cases h : priority_map z.fire_zone <;> simp [h]
    rw [runEngine_eq, runEngine_eq]
    simp only [hz]
  · intro z hzdf hlabel p
    unfold zonesWithPriority
    simp only [List.mem_filter, decide_eq_true_eq, not_and]
    intro _
    have hnone : priority_map z.fire_zone = none := by
      unfold priority_map
      split_ifs with h1 h2 h3 h4
      · exact absurd (by simp [h1]) hlabel
      · exact absurd (by simp [h2]) hlabel
      · exact absurd (by simp [h3]) hlabel
      · exact absurd (by simp [h4]) hlabel
      · rfl
    simp [hnone]

/-- Witness for C10 on a one-row table with an unrecognized label. -/
theorem spec_C10_witness :
    ((⟨"X", 0, 0, 1, 1, "Unknown"⟩ : ZoneRecord) ∈
      [(⟨"X", 0, 0, 1, 1, "Unknown"⟩ : ZoneRecord)]) ∧
    ("Unknown" ∉ ["Safe Zone", "At Risk Day 3", "Critical Day 2", "Critical Day 1"]) ∧
    (⟨"X", 0, 0, 1, 1, "Unknown"⟩ : ZoneRecord) ∉
      zonesWithPriority [(⟨"X", 0, 0, 1, 1, "Unknown"⟩ : ZoneRecord)] 1 := by
  refine ⟨by simp, by simp, ?_⟩
  exact (spec_C10 [⟨"X", 0, 0, 1, 1, "Unknown"⟩]).2 ⟨"X", 0, 0, 1, 1, "Unknown"⟩
    (by simp) (by simp) 1

/-- Pointwise description of the derived weight grid. -/
theorem weightsGrid_get (g : Grid) (i j : Nat) (v : ℚ)
    (h : (g.get? i).bind (fun row => row.get? j) = some v) :
    ((weightsGrid g).get? i).bind (fun row => row.get? j) =
      some (if 0 ≤ v then 1 else 0) := by
  unfold weightsGrid
  rw [List.get?_map]
  cases hg : g.get? i with
  | none => rw [hg] at h; simp at h
  | some row =>
      rw [hg] at h
      simp only [Option.some_bind] at h
      simp only [Option.map_some', Option.some_bind]
      rw [List.get?_map, h, Option.map_some']

/-- C3: the derived weight tensor has the same shape as the (possibly
cropped) output tensor; it holds 1 exactly where the output value is
`≥ 0` and 0 elsewhere — so every strictly negative value, not only -1,
gets weight 0 — and on the output grid with values -1, -1, 0, 1 the
weights are 0, 0, 1, 1. -/
theorem spec_C3 :
    (∀ g : Grid, (weightsGrid g).length = g.length ∧
      ∀ i : Nat, ((weightsGrid g).get? i).map List.length = (g.get? i).map List.length) ∧
    (∀ (g : Grid) (i j : Nat) (v : ℚ),
      (g.get? i).bind (fun row => row.get? j) = some v →
        ((weightsGrid g).get? i).bind (fun row => row.get? j) =
          some (if 0 ≤ v then 1 else 0)) ∧
    (∀ (g : Grid) (i j : Nat) (v : ℚ),
      (g.get? i).bind (fun row => row.get? j) = some v → v < 0 →
        ((weightsGrid g).get? i).bind (fun row => row.get? j) = some 0) ∧
    weightsGrid [[-1, -1], [0, 1]] = [[0, 0], [1, 1]] := by
  refine ⟨fun g => ⟨by simp [weightsGrid], fun i => ?_⟩,
    fun g i j v h => weightsGrid_get g i j v h,
    fun g i j v h hv => ?_, by decide⟩
  · unfold weightsGrid
    rw [List.get?_map]
    cases g.get? i <;> simp
  · rw [weightsGrid_get g i j v h, if_neg (not_le.2 hv)]

/-- Witness for C3 at a strictly negative value other than -1. -/
theorem spec_C3_witness :
    (([[(5 : ℚ), -3]] : Grid).get? 0).bind (fun row => row.get? 1) = some (-3) ∧
    ((weightsGrid [[(5 : ℚ), -3]]).get? 0).bind (fun row => row.get? 1) =
      some (if (0 : ℚ) ≤ -3 then 1 else 0) := by
  have h : (([[(5 : ℚ), -3]] : Grid).get? 0).bind (fun row => row.get? 1) = some (-3) := by
    decide
  exact ⟨h, spec_C3.2.1 [[(5 : ℚ), -3]] 0 1 (-3) h⟩

/-- C4: for a statistic pair with `max_clip > min_clip` the transform
first clamps into the clip range and then rescales by
`(x - min) / (max - min)`, so the result lies in `[0, 1]` for every
input; when `max_clip = min_clip` the result is 0 for every input (the
zero-divisor substitution of `divide_no_nan`). -/
theorem spec_C4 (min_val max_val x : ℚ) :
    (min_val < max_val →
      clip_and_rescale_val min_val max_val x =
        (clip_by_value x min_val max_val - min_val) / (max_val - min_val) ∧
      0 ≤ clip_and_rescale_val min_val max_val x ∧
      clip_and_rescale_val min_val max_val x ≤ 1) ∧
    (min_val = max_val → clip_and_rescale_val min_val max_val x = 0) := by
  constructor
  · intro h
    have hd : max_val - min_val ≠ 0 := sub_ne_zero.2 (ne_of_gt h)
    have hdpos : 0 < max_val - min_val := sub_pos.2 h
    have hlo : min_val ≤ clip_by_value x min_val max_val :=
      le_min (le_max_right x min_val) (le_of_lt h)
    have hhi : clip_by_value x min_val max_val ≤ max_val := min_le_right _ _
    have heq : clip_and_rescale_val min_val max_val x =
        (clip_by_value x min_val max_val - min_val) / (max_val - min_val) := by
      unfold clip_and_rescale_val divide_no_nan
      simp [hd]
    refine ⟨heq, ?_, ?_⟩
    · rw [heq]; exact div_nonneg (sub_nonneg.2 hlo) (le_of_lt hdpos)
    · rw [heq]; exact (div_le_one hdpos).2 (sub_le_sub_right hhi min_val)
  · intro h
    subst h
    unfold clip_and_rescale_val divide_no_nan
    simp

/-- Witness for C4: an input above the clip range rescales into [0,1],
and a degenerate pair yields 0. -/
theorem spec_C4_witness :
    ((0 : ℚ) < 1 ∧
      (clip_and_rescale_val 0 1 5 = (clip_by_value 5 0 1 - 0) / (1 - 0) ∧
        0 ≤ clip_and_rescale_val 0 1 5 ∧ clip_and_rescale_val 0 1 5 ≤ 1)) ∧
    ((2 : ℚ) = 2 ∧ clip_and_rescale_val 2 2 7 = 0) :=
  ⟨⟨by norm_num, (spec_C4 0 1 5).1 (by norm_num)⟩, ⟨rfl, (spec_C4 2 2 7).2 rfl⟩⟩

/-- C5: under every valid parse configuration the output (fire mask)
component is the raw `FireMask` grid with only the crop applied — the
expression is independent of the clip flags, so no clip transform ever
touches the outputs — and every value it holds appears verbatim in the
record's `FireMask` grid, preserving the -1, 0, 1 sentinels. -/
theorem spec_C5 (rec : String → Grid) (data_size sample_size : Nat)
    (cn cr rc cc : Bool) (off : Nat × Nat) (hcrop : ¬(rc = true ∧ cc = true)) :
    ∃ input_img w,
      parse_fn rec data_size sample_size cn cr rc cc off =
        .ok (input_img, [applyCrop rc cc data_size sample_size off (rec "FireMask")], w) ∧
      ∀ v : ℚ,
        (∃ row ∈ applyCrop rc cc data_size sample_size off (rec "FireMask"), v ∈ row) →
        ∃ row ∈ rec "FireMask", v ∈ row := by
  have hmem : ∀ v : ℚ,
      (∃ row ∈ applyCrop rc cc data_size sample_size off (rec "FireMask"), v ∈ row) →
      ∃ row ∈ rec "FireMask", v ∈ row := by
    rintro v ⟨row, hr, hv⟩
    obtain ⟨srcRow, h1, h2⟩ := mem_applyCrop hr
    exact ⟨srcRow, h1, h2 v hv⟩
  cases cn <;> cases cr <;> cases rc <;> cases cc
  case false.false.false.false => exact ⟨_, _, rfl, hmem⟩
  case false.false.false.true => exact ⟨_, _, rfl, hmem⟩
  case false.false.true.false => exact ⟨_, _, rfl, hmem⟩
  case false.false.true.true => exact absurd ⟨rfl, rfl⟩ hcrop
  case false.true.false.false => exact ⟨_, _, rfl, hmem⟩
  case false.true.false.true => exact ⟨_, _, rfl, hmem⟩
  case false.true.true.false => exact ⟨_, _, rfl, hmem⟩
  case false.true.true.true => exact absurd ⟨rfl, rfl⟩ hcrop
  case true.false.false.false => exact ⟨_, _, rfl, hmem⟩
  case true.false.false.true => exact ⟨_, _, rfl, hmem⟩
  case true.false.true.false => exact ⟨_, _, rfl, hmem⟩
  case true.false.true.true => exact absurd ⟨rfl, rfl⟩ hcrop
  case true.true.false.false => exact ⟨_, _, rfl, hmem⟩
  case true.true.false.true => exact ⟨_, _, rfl, hmem⟩
  case true.true.true.false => exact ⟨_, _, rfl, hmem⟩
  case true.true.true.true => exact absurd ⟨rfl, rfl⟩ hcrop

/-- Witness for C5 with a sentinel-valued fire mask and no cropping. -/
theorem spec_C5_witness :
    (¬(false = true ∧ false = true)) ∧
    (∃ input_img w,
      parse_fn (fun _ => [[(-1 : ℚ), 0], [1, -1]]) 2 2 false false false false (0, 0) =
        .ok (input_img,
          [applyCrop false false 2 2 (0, 0) [[(-1 : ℚ), 0], [1, -1]]], w) ∧
      ∀ v : ℚ,
        (∃ row ∈ applyCrop false false 2 2 (0, 0) [[(-1 : ℚ), 0], [1, -1]], v ∈ row) →
        ∃ row ∈ [[(-1 : ℚ), 0], [1, -1]], v ∈ row) :=
  ⟨by simp, spec_C5 (fun _ => [[(-1 : ℚ), 0], [1, -1]]) 2 2 false false false false
    (0, 0) (by simp)⟩

/-- C6: key resolution succeeds exactly when the key starts with an
alphabetic character; on success it returns the maximal leading
alphabetic run, so "tmmx_3" resolves to the same `DATA_STATS` entry as
"tmmx"; otherwise it fails with the pattern error (the spec's
`KeyFormatError`). -/
theorem spec_C6 :
    (∀ key : String, (∃ s, get_base_key key = .ok s) ↔
        ∃ c, key.data.head? = some c ∧ c.isAlpha = true) ∧
    (∀ (key s : String), get_base_key key = .ok s →
        s = String.mk (key.data.takeWhile Char.isAlpha)) ∧
    (∀ key : String, (∀ c, key.data.head? = some c → c.isAlpha = false) →
        ∃ msg, get_base_key key = .error msg) ∧
    (get_base_key "tmmx_3" = .ok "tmmx" ∧ get_base_key "tmmx" = .ok "tmmx" ∧
      (get_base_key "tmmx_3").toOption.bind lookupStats =
        (get_base_key "tmmx").toOption.bind lookupStats) := by
  refine ⟨fun key => ?_, fun key s h => ?_, fun key h => ?_, rfl, rfl, rfl⟩
  · unfold get_base_key
    cases hd : key.data with
    | nil => simp [hd]
    | cons c cs =>
        by_cases hc : c.isAlpha
        · simp [hd, List.takeWhile_cons, hc]
        · simp [hd, List.takeWhile_cons, hc]
  · unfold get_base_key at h
    cases htw : key.data.takeWhile Char.isAlpha with
    | nil => rw [htw] at h; simp at h
    | cons c cs =>
        rw [htw] at h
        simp only [Except.ok.injEq] at h
        exact h.symm
  · unfold get_base_key
    cases hd : key.data with
    | nil =>
        exact ⟨"The provided key does not match the expected pattern: " ++ key,
          by simp [hd]⟩
    | cons c cs =>
        have hc : c.isAlpha = false := h c (by rw [hd]; rfl)
        exact ⟨"The provided key does not match the expected pattern: " ++ key,
          by simp [hd, List.takeWhile_cons, hc]⟩

/-- Witness for C6 at the key "tmmx_3". -/
theorem spec_C6_witness :
    get_base_key "tmmx_3" = .ok "tmmx" ∧
    "tmmx" = String.mk ("tmmx_3".data.takeWhile Char.isAlpha) :=
  ⟨rfl, spec_C6.2.1 "tmmx_3" "tmmx" rfl⟩

/-- C7: a configuration requesting both crop modes makes `_parse_fn`
fail with the crop configuration error for every record — the error is
the same whatever the record, so no sample content is read — and a
configuration requesting both normalize modes makes `get_dataset` fail
with the normalize configuration error for every shard list; under
either conflict `get_dataset` returns a configuration error that does
not depend on the shard contents, so it fails before any data is read
and no sample is parsed. -/
theorem spec_C7 (cn cr rc cc : Bool) :
    (rc = true → cc = true →
      ∀ (rec : String → Grid) (ds ss : Nat) (off : Nat × Nat),
        parse_fn rec ds ss cn cr rc cc off =
          .error "Cannot have both random_crop and center_crop be True") ∧
    (cn = true → cr = true →
      ∀ (files : List (List (String → Grid))) (ds ss bs : Nat) (off : Nat × Nat),
        get_dataset files ds ss bs cn cr rc cc off =
          .error "Cannot have both normalize and rescale.") ∧
    ((rc = true ∧ cc = true) ∨ (cn = true ∧ cr = true) →
      ∀ (ds ss bs : Nat) (off : Nat × Nat), ∃ msg,
        ∀ files, get_dataset files ds ss bs cn cr rc cc off = .error msg) := by
  refine ⟨?_, ?_, ?_⟩
  · rintro rfl rfl rec ds ss off
    rfl
  · rintro rfl rfl files ds ss bs off
    rfl
  · rintro (⟨rfl, rfl⟩ | ⟨rfl, rfl⟩) ds ss bs off
    · cases cn <;> cases cr <;> exact ⟨_, fun files => rfl⟩
    · exact ⟨_, fun files => rfl⟩

/-- Witness for C7 at concrete conflicting configurations. -/
theorem spec_C7_witness :
    parse_fn (fun _ => ([] : Grid)) 1 1 false false true true (0, 0) =
      .error "Cannot have both random_crop and center_crop be True" ∧
    get_dataset [] 1 1 1 true true false false (0, 0) =
      .error "Cannot have both normalize and rescale." :=
  ⟨(spec_C7 false false true true).1 rfl rfl (fun _ => []) 1 1 (0, 0),
   (spec_C7 true true false false).2.1 rfl rfl [] 1 1 1 (0, 0)⟩
